import Mathlib

/-!
Shallow embedding of `src/ptp/utils/pipeline.py` (the `Pipeline` class:
component registry, priority assembly, introspection and the
input/output-definition handshake).

Modelling conventions:
* Python floats used as priorities are modelled as `Rat` (exact equality
  stands in for float equality on the literals the configuration carries).
* A configuration is an insertion-ordered association list
  (Python dicts preserve insertion order and have unique keys).
* `float(...)` applied to the raw `priority` value is modelled by the
  data already carrying `Option Rat`: `some q` when parsing succeeds,
  `none` when `float` raises `ValueError`.
* Exceptions are modelled with `Except PyError`; logging (the `logger`
  and the `log`/`log_errors` flags) has no effect on state or returned
  values and is elided.
* The opaque component capability surface (`input_data_definitions`,
  `output_data_definitions`, `handshake_input_definitions`,
  `export_output_definitions`) is carried as data/function fields on
  `Component`, as the implementations are external collaborators.
-/

/-- One named data slot contract: dimensions, acceptable types, description. -/
structure DataDefinition where
  dimensions : List Int
  types : List String
  description : String
deriving DecidableEq, Repr

/-- Mapping from slot name to `DataDefinition` (insertion-ordered dict). -/
abbrev DefinitionSet := List (String × DataDefinition)

/-- A component instance, as seen by the pipeline: its name, the runtime
class name (Python `type(obj).__name__`), declared input/output
definition sets, and the two opaque handshake contracts.
`handshakeInput` models `handshake_input_definitions` (returns an error
count); `exportOutput` models `export_output_definitions` (returns an
error count and the definition set after merging the outputs in place). -/
structure Component where
  name : String
  clsName : String
  inputDefs : DefinitionSet
  outputDefs : DefinitionSet
  handshakeInput : DefinitionSet → Nat
  exportOutput : DefinitionSet → Nat × DefinitionSet

/-- The fields of one configuration section this code reads: the `type`
key (absent or a string) and the `priority` key (absent, or present with
`some q` when `float` parses it to `q`, `none` when `float` raises). -/
structure Params where
  type? : Option String
  priority? : Option (Option Rat)
deriving DecidableEq, Repr

/-- The value of one configuration section: a parameter record, or a raw
string (as the `skip` directive is). -/
inductive SectionVal where
  | params (ps : Params)
  | raw (s : String)
deriving DecidableEq, Repr

/-- A configuration: insertion-ordered mapping from section name to value. -/
abbrev Config := List (String × SectionVal)

/-- A resolved class object: its `__name__`, the names of all classes on
its method resolution order (`inspect.getmro`), and its constructor
(`class_obj(name, params)`), which may fail with the initializer's own
exception (carried as a message). -/
structure ClassObj where
  clsName : String
  mro : List String
  instantiate : String → SectionVal → Except String Component

/-- Result of looking a name up in a namespace: a class object, a
non-class object (on which `inspect.getmro` raises), or nothing
(`AttributeError`/`NameError`). -/
inductive Resolved where
  | cls (c : ClassObj)
  | nonClass
  | missing

/-- The two name-resolution tiers of `create_component`: `evalName`
models `eval(c_type)` (used when the type name mentions `ptp.`),
`attrName` models `getattr(ptp, c_type)`. -/
structure PtpEnv where
  evalName : String → Resolved
  attrName : String → Resolved

/-- The Python exceptions this code can surface. `configurationError` is
the only one the pipeline itself raises and catches; `attributeError`
also stands for the `NameError`/`TypeError` a failed name resolution or
`getmro` on a non-class raises. -/
inductive PyError where
  | configurationError (msg : String)
  | attributeError (msg : String)
  | typeError (msg : String)
  | keyError (msg : String)
  | componentInitError (msg : String)
deriving DecidableEq, Repr

/-- The pipeline state: optional problem, the priority-keyed component
dict (insertion-ordered, keys unique), the model and loss reference
lists, and the cached sorted priority list (`self.__priorities`, set by
`build_pipeline`). -/
structure Pipeline where
  problem : Option Component
  components : List (Rat × Component)
  models : List Component
  losses : List Component
  priorities : List Rat

/-- The `__init__` state: no problem, empty dict and lists. -/
def initPipeline : Pipeline :=
  { problem := none, components := [], models := [], losses := [], priorities := [] }

/-- Exact-key lookup in an insertion-ordered association list (Python
dict subscript / `in` test support). -/
def assocFind? {α β : Type} [DecidableEq α] (l : List (α × β)) (k : α) : Option β :=
  (l.find? (fun kv => decide (kv.1 = k))).map Prod.snd

/-- Python `key in dict` on the components dict. -/
def dictHasKey {α β : Type} [DecidableEq α] (l : List (α × β)) (k : α) : Bool :=
  l.any (fun kv => decide (kv.1 = k))

/-- Character-list leading-match test (structural recursion, so that
concrete evaluation reduces in the kernel). -/
def leadChars : List Char → List Char → Bool
  | [], _ => true
  | _ :: _, [] => false
  | p :: ps, c :: cs => p == c && leadChars ps cs

/-- Character-list substring occurrence test. -/
def subChars (pat : List Char) : List Char → Bool
  | [] => leadChars pat []
  | c :: cs => leadChars pat (c :: cs) || subChars pat cs

/-- Substring containment, modelling Python `sub in s` / `s.find(sub) != -1`. -/
def containsSub (s pat : String) : Bool :=
  subChars pat.data s.data

/-- Two-tier type-name resolution of `create_component`: names mentioning
`ptp.` go through `eval`, the rest through `getattr(ptp, ...)`. -/
def resolveType (env : PtpEnv) (c_type : String) : Resolved :=
  if containsSub c_type "ptp." then env.evalName c_type else env.attrName c_type

/-- Embedding of `Pipeline.create_component`: check the `type` key,
resolve the class, check that some class named `Component` appears on
its mro, then instantiate. Resolution failures surface as uncaught
`AttributeError`; a raw-string section makes the `'type' not in params`
membership test a substring test and the subscript a `TypeError`. -/
def create_component (env : PtpEnv) (name : String) (params : SectionVal) :
    Except PyError (Component × ClassObj) := do
  let c_type ← match params with
    | .raw s =>
        if containsSub s "type" then
          throw (.typeError "string indices must be integers")
        else
          throw (.configurationError
            ("Section " ++ name ++ " does not contain the key 'type' defining the component type"))
    | .params ps =>
        match ps.type? with
        | none =>
            throw (.configurationError
              ("Section " ++ name ++ " does not contain the key 'type' defining the component type"))
        | some t => pure t
  let class_obj ← match resolveType env c_type with
    | .cls c => pure c
    | .nonClass => throw (.attributeError (c_type ++ " is not a class"))
    | .missing => throw (.attributeError c_type)
  if class_obj.mro.contains "Component" then
    match class_obj.instantiate name params with
    | .ok component => return (component, class_obj)
    | .error msg => throw (.componentInitError msg)
  else
    throw (.configurationError
      ("Class '" ++ c_type ++ "' is not derived from the Component class"))

/-- Embedding of `Pipeline.create_problem`: create the component, check
`Problem` appears on the mro, store it. Only `ConfigurationError` is
caught and turned into the returned count `1`; every other exception
propagates. -/
def create_problem (env : PtpEnv) (pl : Pipeline) (name : String) (params : SectionVal) :
    Except PyError (Pipeline × Nat) :=
  match create_component env name params with
  | .ok (component, class_obj) =>
      if class_obj.mro.contains "Problem" then
        .ok ({ pl with problem := some component }, 0)
      else
        .ok (pl, 1)
  | .error (.configurationError _) => .ok (pl, 1)
  | .error e => .error e

/-- The body of one non-skipped iteration of the `build_pipeline` loop
(everything inside the `try`): create the component, reject Problems,
require and parse `priority`, reject duplicates, store, classify into
models/losses. -/
def buildSection (env : PtpEnv) (pl : Pipeline) (c_key : String) (c_params : SectionVal) :
    Except PyError Pipeline := do
  let (component, class_obj) ← create_component env c_key c_params
  if class_obj.mro.contains "Problem" then
    throw (.configurationError
      ("Object '" ++ c_key ++ "' cannot be instantiated as part of pipeline, as its class type is derived from Problem class"))
  match c_params with
  | .raw s =>
      if containsSub s "priority" then
        throw (.typeError "string indices must be integers")
      else
        throw (.configurationError
          ("Section '" ++ c_key ++ "' does not contain the key 'priority' defining the pipeline order"))
  | .params ps =>
    match ps.priority? with
    | none =>
        throw (.configurationError
          ("Section '" ++ c_key ++ "' does not contain the key 'priority' defining the pipeline order"))
    | some pv =>
      match pv with
      | none =>
          throw (.configurationError
            ("Priority in section '" ++ c_key ++ "' is not a floating point number"))
      | some c_priority =>
        if dictHasKey pl.components c_priority then
          throw (.configurationError "Found more than one component with the same priority")
        else
          let pl := { pl with components := pl.components ++ [(c_priority, component)] }
          let pl := if class_obj.mro.contains "Model" then
              { pl with models := pl.models ++ [component] } else pl
          let pl := if class_obj.mro.contains "Loss" then
              { pl with losses := pl.losses ++ [component] } else pl
          return pl

/-- The built-in reserved section names
(`"skip optimizer gradient_clipping terminal_conditions seed_torch seed_numpy".split()`). -/
def reservedSkip : List String :=
  ["skip", "optimizer", "gradient_clipping", "terminal_conditions", "seed_torch", "seed_numpy"]

/-- Character-list split at commas (structural recursion), modelling
Python `s.split(",")`: empty pieces are kept. -/
def splitCharsComma : List Char → List (List Char)
  | [] => [[]]
  | c :: rest =>
    let r := splitCharsComma rest
    if c == ',' then [] :: r
    else
      match r with
      | [] => [[c]]
      | h :: t => (c :: h) :: t

/-- Python `s.split(",")` on a string. -/
def splitCommas (s : String) : List String :=
  (splitCharsComma s.data).map String.mk

/-- The skip-list computation at the top of `build_pipeline`: the
reserved names, extended by splitting an explicit `skip` directive on
commas. A `skip` section holding a parameter record would make
`params["skip"].split(",")` raise `AttributeError`. -/
def sectionsToSkip (config : Config) : Except PyError (List String) :=
  match assocFind? config "skip" with
  | some (.raw s) => .ok (reservedSkip ++ splitCommas s)
  | some (.params _) => .error (.attributeError "dict object has no attribute split")
  | none => .ok reservedSkip

/-- The section loop of `build_pipeline`: skip listed sections, otherwise
run `buildSection`, counting (only) `ConfigurationError`s and letting
every other exception propagate. -/
def buildLoop (env : PtpEnv) (skipList : List String) :
    Pipeline → Nat → Config → Except PyError (Pipeline × Nat)
  | pl, errors, [] => .ok (pl, errors)
  | pl, errors, (c_key, c_params) :: rest =>
    if skipList.contains c_key then
      buildLoop env skipList pl errors rest
    else
      match buildSection env pl c_key c_params with
      | .ok pl' => buildLoop env skipList pl' errors rest
      | .error (.configurationError _) => buildLoop env skipList pl (errors + 1) rest
      | .error e => .error e

/-- Embedding of `Pipeline.build_pipeline`: compute the skip list, run
the section loop, then cache the ascending-sorted priority list and
return the error count. -/
def build_pipeline (env : PtpEnv) (pl : Pipeline) (config : Config) :
    Except PyError (Pipeline × Nat) := do
  let skipList ← sectionsToSkip config
  let (pl', errors) ← buildLoop env skipList pl 0 config
  return ({ pl' with
      priorities := List.insertionSort (fun a b => a ≤ b) (pl'.components.map Prod.fst) },
    errors)

/-- Python list indexing (negative indices count from the end; out of
range gives `IndexError`, modelled as `none`). -/
def pyIndex {α : Type} (l : List α) (number : Int) : Option α :=
  let j := if number < 0 then number + l.length else number
  if 0 ≤ j then l.get? j.toNat else none

/-- Embedding of `Pipeline.__getitem__`:
`self.__components[self.__priorities[number]]`. `none` models the
`IndexError`/`KeyError` a failed subscript raises. -/
def getItem (pl : Pipeline) (number : Int) : Option Component :=
  (pyIndex pl.priorities number).bind (fun prio => assocFind? pl.components prio)

/-- Embedding of `Pipeline.__len__`: component count plus one when a
problem is registered. -/
def pipelineLen (pl : Pipeline) : Nat :=
  pl.priorities.length + (match pl.problem with | some _ => 1 | none => 0)

/-- The loop of `Pipeline.handshake`: walk the cached priorities, look
each component up, add its input-validation error count, then its
export error count, threading the accumulated definition set. -/
def handshakeLoop (pl : Pipeline) : Nat → DefinitionSet → List Rat → Except PyError Nat
  | errors, _, [] => .ok errors
  | errors, defs, prio :: rest =>
    match assocFind? pl.components prio with
    | none => .error (.keyError "priority not found among components")
    | some comp =>
      let e1 := comp.handshakeInput defs
      let r := comp.exportOutput defs
      handshakeLoop pl (errors + e1 + r.1) r.2 rest

/-- Embedding of `Pipeline.handshake`: start from the problem's declared
output definitions (attribute access on `None` raises when no problem is
registered) and run the loop. -/
def handshake (pl : Pipeline) : Except PyError Nat :=
  match pl.problem with
  | none => .error (.attributeError "NoneType object has no attribute output_data_definitions")
  | some problem => handshakeLoop pl 0 problem.outputDefs pl.priorities

/-- Rendering of a Python list/set literal, standing in for `repr` of
the `dimensions`/`types` values in `summarize`. -/
def fmtList (l : List String) : String :=
  "[" ++ String.intercalate ", " l ++ "]"

/-- One `key: dims, types, description` line of `summarize`. -/
def fmtDef (key : String) (v : DataDefinition) : String :=
  "        " ++ key ++ ": " ++ fmtList (v.dimensions.map toString) ++ ", "
    ++ fmtList v.types ++ ", " ++ v.description ++ "\n"

/-- All definition lines of one definition set, in insertion order. -/
def fmtDefs (ds : DefinitionSet) : String :=
  String.join (ds.map (fun kv => fmtDef kv.1 kv.2))

/-- The `'='*80` separator line. -/
def eqLine : String := String.mk (List.replicate 80 '=')

/-- The fixed header `summarize` emits before any component. -/
def summarizeHeader : String :=
  "\n" ++ eqLine ++ "\n" ++ "Pipeline\n"
    ++ "  + Component name (type) [priority]\n"
    ++ "      Inputs:\n" ++ "        key: dims, types, description\n"
    ++ "      Outputs:\n" ++ "        key: dims, types, description\n"
    ++ eqLine ++ "\n"

/-- The problem paragraph of `summarize`. -/
def summarizeProblem (pl : Pipeline) : String :=
  match pl.problem with
  | none => "  + Problem (None) [-1]:\n"
  | some pr =>
      "  + " ++ pr.name ++ " (" ++ pr.clsName ++ ") [-1]\n"
        ++ "      Outputs:\n" ++ fmtDefs pr.outputDefs

/-- The paragraph `summarize` emits for one scheduled component. -/
def summarizeEntry (prio : Rat) (comp : Component) : String :=
  "  + " ++ comp.name ++ " " ++ comp.clsName ++ " [" ++ toString prio ++ "] \n"
    ++ "      Inputs:\n" ++ fmtDefs comp.inputDefs
    ++ "      Outputs:\n" ++ fmtDefs comp.outputDefs

/-- The component loop of `summarize`, accumulating onto `summary_str`
exactly as the source's `for prio in self.__priorities` does; a
dangling cached priority would make the dict subscript raise `KeyError`. -/
def summarizeLoop (pl : Pipeline) : String → List Rat → Except PyError String
  | acc, [] => .ok acc
  | acc, prio :: rest =>
    match assocFind? pl.components prio with
    | none => .error (.keyError "priority not found among components")
    | some comp => summarizeLoop pl (acc ++ summarizeEntry prio comp) rest

/-- Embedding of `Pipeline.summarize`, in explicit state-passing form:
the returned pipeline is the state after the call (the source assigns to
no `self` attribute), paired with the report string. -/
def summarize (pl : Pipeline) : Except PyError (Pipeline × String) := do
  let body ← summarizeLoop pl (summarizeHeader ++ summarizeProblem pl) pl.priorities
  return (pl, body ++ eqLine ++ "\n")


/-- The outcome of one configuration section when it is fully valid as a
pipeline stage: the parsed priority, the instantiated component and its
class object; `none` when any check of `buildSection` would fail. -/
def sectionOutcome (env : PtpEnv) (sec : String × SectionVal) :
    Option (Rat × Component × ClassObj) :=
  match sec.2 with
  | .raw _ => none
  | .params ps =>
    match ps.type? with
    | none => none
    | some t =>
      match resolveType env t with
      | .cls cobj =>
        if cobj.mro.contains "Component" && !cobj.mro.contains "Problem" then
          match cobj.instantiate sec.1 (.params ps) with
          | .ok comp =>
            match ps.priority? with
            | some (some q) => some (q, comp, cobj)
            | some none => none
            | none => none
          | .error _ => none
        else none
      | .nonClass => none
      | .missing => none

/-- The priority-keyed entries a configuration contributes to the
components dict when all its non-skipped sections are valid. -/
def contribComponents (env : PtpEnv) (skipList : List String) (config : Config) :
    List (Rat × Component) :=
  config.filterMap (fun sec =>
    if skipList.contains sec.1 then none
    else (sectionOutcome env sec).map (fun r => (r.1, r.2.1)))

/-- The components a configuration contributes to the list collecting
the capability named `tag` (`"Model"` or `"Loss"`), in declaration
order. -/
def contribTagged (tag : String) (env : PtpEnv) (skipList : List String) (config : Config) :
    List Component :=
  config.filterMap (fun sec =>
    if skipList.contains sec.1 then none
    else match sectionOutcome env sec with
      | some r => if r.2.2.mro.contains tag then some r.2.1 else none
      | none => none)

/-- The scheduled components in cached priority order. -/
def orderedComponents (pl : Pipeline) : List Component :=
  pl.priorities.filterMap (assocFind? pl.components)

/-- The scheduled components in cached priority order, with their
priorities. -/
def orderedEntries (pl : Pipeline) : List (Rat × Component) :=
  pl.priorities.filterMap (fun q => (assocFind? pl.components q).map (fun c => (q, c)))

/-- The handshake contract as the specification words it: starting from
the problem's declared output definition set, fold over the components
in order, first taking each component's input-validation error count
against the accumulated set, then merging its outputs into the set, and
summing both error counts. -/
def handshakeSpec (pr : Component) (comps : List Component) : Nat :=
  (comps.foldl
    (fun acc c =>
      (acc.1 + c.handshakeInput acc.2 + (c.exportOutput acc.2).1, (c.exportOutput acc.2).2))
    (0, pr.outputDefs)).1

/-- The summarize report as the specification words it: the header, the
problem paragraph, one paragraph per component in priority order, and
the closing separator. -/
def reportOf (pl : Pipeline) : String :=
  summarizeHeader ++ summarizeProblem pl
    ++ String.join ((orderedEntries pl).map (fun e => summarizeEntry e.1 e.2))
    ++ eqLine ++ "\n"

/-! Generic helper lemmas about strings, association lists and permutations. -/

theorem strAppend_assoc (a b c : String) : a ++ b ++ c = a ++ (b ++ c) := by
  apply String.ext
  simp [String.data_append]

theorem strAppend_empty (a : String) : a ++ "" = a := by
  apply String.ext
  simp [String.data_append]

theorem strJoin_cons (a : String) (l : List String) :
    String.join (a :: l) = a ++ String.join l := by
  apply String.ext
  simp [String.join_eq, String.data_append]

theorem strJoin_nil : String.join [] = "" := rfl

theorem dictHasKey_iff {α β : Type} [DecidableEq α] (l : List (α × β)) (k : α) :
    dictHasKey l k = true ↔ k ∈ l.map Prod.fst := by
  simp [dictHasKey, List.any_eq_true, List.mem_map]

theorem assocFind?_isSome_iff {α β : Type} [DecidableEq α] (l : List (α × β)) (k : α) :
    (assocFind? l k).isSome = true ↔ k ∈ l.map Prod.fst := by
  simp [assocFind?, List.find?_isSome, List.mem_map]

theorem assocFind?_perm {α β : Type} [DecidableEq α] {l1 l2 : List (α × β)}
    (h : l1.Perm l2) (hnd : (l1.map Prod.fst).Nodup) (k : α) :
    assocFind? l1 k = assocFind? l2 k := by
  induction h with
  | nil => rfl
  | cons x h ih =>
      simp only [List.map_cons, List.nodup_cons] at hnd
      simp only [assocFind?, List.find?_cons]
      cases hx : decide (x.1 = k) with
      | true => rfl
      | false => exact ih hnd.2
  | swap x y l =>
      simp only [List.map_cons, List.nodup_cons, List.mem_cons] at hnd
      simp only [assocFind?, List.find?_cons]
      cases hy : decide (y.1 = k) with
      | true =>
          cases hx : decide (x.1 = k) with
          | true =>
              exact absurd (Or.inl ((of_decide_eq_true hy).trans
                (of_decide_eq_true hx).symm)) hnd.1
          | false => rfl
      | false => cases hx : decide (x.1 = k) <;> rfl
  | trans h1 h2 ih1 ih2 =>
      have hnd2 := (h1.map Prod.fst).nodup_iff.mp hnd
      exact (ih1 hnd).trans (ih2 hnd2)

/-! Inversion and step lemmas relating one configuration section to its
effect on the build. -/

theorem sectionOutcome_inv {env : PtpEnv} {c_key : String} {ps : Params}
    {q : Rat} {comp : Component} {cobj : ClassObj}
    (h : sectionOutcome env (c_key, SectionVal.params ps) = some (q, comp, cobj)) :
    ∃ t, ps.type? = some t ∧ resolveType env t = .cls cobj ∧
      cobj.mro.contains "Component" = true ∧ cobj.mro.contains "Problem" = false ∧
      cobj.instantiate c_key (.params ps) = .ok comp ∧ ps.priority? = some (some q) := by
  simp only [sectionOutcome] at h
  cases hty : ps.type? with
  | none => simp [hty] at h
  | some t =>
      simp only [hty] at h
      cases hres : resolveType env t with
      | nonClass => simp [hres] at h
      | missing => simp [hres] at h
      | cls c =>
          simp only [hres] at h
          cases hc : (c.mro.contains "Component" && !c.mro.contains "Problem") with
          | false =>
              rw [hc] at h
              simp at h
          | true =>
              rw [hc] at h
              rw [if_pos rfl] at h
              cases hinst : c.instantiate c_key (.params ps) with
              | error m => simp [hinst] at h
              | ok cc =>
                  simp only [hinst] at h
                  cases hprio : ps.priority? with
                  | none => simp [hprio] at h
                  | some pv =>
                      simp only [hprio] at h
                      cases pv with
                      | none => simp at h
                      | some qq =>
                          simp only [Option.some.injEq, Prod.mk.injEq] at h
                          obtain ⟨h1, h2, h3⟩ := h
                          subst h1
                          subst h2
                          subst h3
                          have hb := Bool.and_eq_true_iff.mp hc
                          exact ⟨t, rfl, hres, hb.1, by simpa using hb.2, hinst, rfl⟩

theorem sectionOutcome_raw {env : PtpEnv} {c_key : String} {s : String} :
    sectionOutcome env (c_key, SectionVal.raw s) = none := rfl

theorem create_component_of_outcome {env : PtpEnv} {c_key : String} {ps : Params}
    {q : Rat} {comp : Component} {cobj : ClassObj}
    (h : sectionOutcome env (c_key, SectionVal.params ps) = some (q, comp, cobj)) :
    create_component env c_key (.params ps) = .ok (comp, cobj) := by
  obtain ⟨t, hty, hres, hcomp, _, hinst, _⟩ := sectionOutcome_inv h
  have hmem : "Component" ∈ cobj.mro := by simpa using hcomp
  simp only [create_component, hty, pure_bind]
  rw [hres]
  simp [hmem, hinst, pure_bind]
  rfl

theorem exceptOk_bind {ε α β : Type} (a : α) (f : α → Except ε β) :
    (Except.ok a : Except ε α) >>= f = f a := rfl

theorem exceptErr_bind {ε α β : Type} (e : ε) (f : α → Except ε β) :
    (Except.error e : Except ε α) >>= f = Except.error e := rfl

theorem buildSection_ok {env : PtpEnv} {pl : Pipeline} {c_key : String} {ps : Params}
    {q : Rat} {comp : Component} {cobj : ClassObj}
    (h : sectionOutcome env (c_key, SectionVal.params ps) = some (q, comp, cobj))
    (hdup : dictHasKey pl.components q = false) :
    buildSection env pl c_key (.params ps) = .ok
      { pl with
          components := pl.components ++ [(q, comp)]
          models := (if cobj.mro.contains "Model" = true then pl.models ++ [comp] else pl.models)
          losses := (if cobj.mro.contains "Loss" = true then pl.losses ++ [comp] else pl.losses) } := by
  obtain ⟨t, hty, hres, hcomp, hprob, hinst, hprio⟩ := sectionOutcome_inv h
  have hcc := create_component_of_outcome h
  simp only [buildSection, hcc, exceptOk_bind, hprob, hprio, hdup, pure_bind]
  by_cases hm : "Model" ∈ cobj.mro <;> by_cases hl : "Loss" ∈ cobj.mro <;>
    simp [hm, hl, pure, Except.pure]

theorem buildSection_duplicate {env : PtpEnv} {pl : Pipeline} {c_key : String} {ps : Params}
    {q : Rat} {comp : Component} {cobj : ClassObj}
    (h : sectionOutcome env (c_key, SectionVal.params ps) = some (q, comp, cobj))
    (hdup : dictHasKey pl.components q = true) :
    buildSection env pl c_key (.params ps) =
      .error (.configurationError "Found more than one component with the same priority") := by
  obtain ⟨t, hty, hres, hcomp, hprob, hinst, hprio⟩ := sectionOutcome_inv h
  have hcc := create_component_of_outcome h
  simp only [buildSection, hcc, exceptOk_bind, hprob, hprio, hdup, pure_bind]
  simp [hprob, hdup]
  rfl

theorem buildLoop_all_valid (env : PtpEnv) (skipList : List String) (config : Config) :
    ∀ (pl : Pipeline) (errors : Nat),
    (∀ sec ∈ config, skipList.contains sec.1 = false → (sectionOutcome env sec).isSome = true) →
    ((pl.components.map Prod.fst)
      ++ (contribComponents env skipList config).map Prod.fst).Nodup →
    buildLoop env skipList pl errors config = .ok
      ({ pl with
          components := pl.components ++ contribComponents env skipList config
          models := pl.models ++ contribTagged "Model" env skipList config
          losses := pl.losses ++ contribTagged "Loss" env skipList config }, errors) := by
  induction config with
  | nil =>
      intro pl errors _ _
      simp [buildLoop, contribComponents, contribTagged]
  | cons sec rest ih =>
      intro pl errors hvalid hnodup
      obtain ⟨c_key, c_val⟩ := sec
      by_cases hskip : skipList.contains c_key = true
      · have hskipm : c_key ∈ skipList := by simpa using hskip
        have hcr : contribComponents env skipList ((c_key, c_val) :: rest) =
            contribComponents env skipList rest := by
          simp [contribComponents, List.filterMap_cons, hskipm]
        have hmr : contribTagged "Model" env skipList ((c_key, c_val) :: rest) =
            contribTagged "Model" env skipList rest := by
          simp [contribTagged, List.filterMap_cons, hskipm]
        have hlr : contribTagged "Loss" env skipList ((c_key, c_val) :: rest) =
            contribTagged "Loss" env skipList rest := by
          simp [contribTagged, List.filterMap_cons, hskipm]
        have hstep : buildLoop env skipList pl errors ((c_key, c_val) :: rest) =
            buildLoop env skipList pl errors rest := by
          simp [buildLoop, hskipm]
        rw [hstep, hcr, hmr, hlr]
        rw [hcr] at hnodup
        exact ih pl errors (fun s hs h => hvalid s (List.mem_cons_of_mem _ hs) h) hnodup
      · have hsk : skipList.contains c_key = false := by
          simpa using hskip
        have hskipm : c_key ∉ skipList := by simpa using hsk
        have hsome := hvalid (c_key, c_val) (List.mem_cons_self _ _) hsk
        cases c_val with
        | raw s => simp [sectionOutcome] at hsome
        | params ps =>
          obtain ⟨r, hr⟩ := Option.isSome_iff_exists.mp hsome
          obtain ⟨q, comp, cobj⟩ := r
          have hcr : contribComponents env skipList ((c_key, SectionVal.params ps) :: rest) =
              (q, comp) :: contribComponents env skipList rest := by
            simp [contribComponents, List.filterMap_cons, hskipm, hr]
          rw [hcr] at hnodup
          have hnd := List.nodup_append.mp hnodup
          have hqA : q ∉ pl.components.map Prod.fst := by
            intro hq
            exact (hnd.2.2 hq) (List.mem_cons_self _ _)
          have hdupf : dictHasKey pl.components q = false := by
            have hne : ¬(dictHasKey pl.components q = true) :=
              fun hh => hqA ((dictHasKey_iff _ _).mp hh)
            exact Bool.not_eq_true _ |>.mp hne
          have hbs := buildSection_ok hr hdupf
          have hstep : buildLoop env skipList pl errors ((c_key, SectionVal.params ps) :: rest) =
              buildLoop env skipList
                { pl with
                    components := pl.components ++ [(q, comp)]
                    models := (if cobj.mro.contains "Model" = true
                      then pl.models ++ [comp] else pl.models)
                    losses := (if cobj.mro.contains "Loss" = true
                      then pl.losses ++ [comp] else pl.losses) }
                errors rest := by
            simp [buildLoop, hsk, hbs, hskipm]
          have hnodup2 :
              ((pl.components ++ [(q, comp)]).map Prod.fst
                ++ (contribComponents env skipList rest).map Prod.fst).Nodup := by
            simpa [List.append_assoc] using hnodup
          have hih := ih
            { pl with
                components := pl.components ++ [(q, comp)]
                models := (if cobj.mro.contains "Model" = true
                  then pl.models ++ [comp] else pl.models)
                losses := (if cobj.mro.contains "Loss" = true
                  then pl.losses ++ [comp] else pl.losses) }
            errors (fun s hs h => hvalid s (List.mem_cons_of_mem _ hs) h) hnodup2
          rw [hstep, hih, hcr]
          have hmr : contribTagged "Model" env skipList ((c_key, SectionVal.params ps) :: rest) =
              (if cobj.mro.contains "Model" = true
                then comp :: contribTagged "Model" env skipList rest
                else contribTagged "Model" env skipList rest) := by
            by_cases hm : cobj.mro.contains "Model" = true
            · have hm2 : "Model" ∈ cobj.mro := by simpa using hm
              simp [contribTagged, List.filterMap_cons, hskipm, hr, hm, hm2]
            · have hm2 : "Model" ∉ cobj.mro := by simpa using hm
              simp [contribTagged, List.filterMap_cons, hskipm, hr, hm, hm2]
          have hlr : contribTagged "Loss" env skipList ((c_key, SectionVal.params ps) :: rest) =
              (if cobj.mro.contains "Loss" = true
                then comp :: contribTagged "Loss" env skipList rest
                else contribTagged "Loss" env skipList rest) := by
            by_cases hl : cobj.mro.contains "Loss" = true
            · have hl2 : "Loss" ∈ cobj.mro := by simpa using hl
              simp [contribTagged, List.filterMap_cons, hskipm, hr, hl, hl2]
            · have hl2 : "Loss" ∉ cobj.mro := by simpa using hl
              simp [contribTagged, List.filterMap_cons, hskipm, hr, hl, hl2]
          rw [hmr, hlr]
          by_cases hm : "Model" ∈ cobj.mro <;>
            by_cases hl : "Loss" ∈ cobj.mro <;>
              simp [hm, hl, List.append_assoc]

theorem build_pipeline_all_valid (env : PtpEnv) (config : Config) (skipList : List String)
    (pl0 : Pipeline)
    (hskip : sectionsToSkip config = .ok skipList)
    (hvalid : ∀ sec ∈ config, skipList.contains sec.1 = false →
      (sectionOutcome env sec).isSome = true)
    (hnodup : ((pl0.components.map Prod.fst)
      ++ (contribComponents env skipList config).map Prod.fst).Nodup) :
    build_pipeline env pl0 config = .ok
      ({ pl0 with
          components := pl0.components ++ contribComponents env skipList config
          models := pl0.models ++ contribTagged "Model" env skipList config
          losses := pl0.losses ++ contribTagged "Loss" env skipList config
          priorities := List.insertionSort (fun a b => a ≤ b)
            ((pl0.components ++ contribComponents env skipList config).map Prod.fst) }, 0) := by
  simp only [build_pipeline, hskip, exceptOk_bind]
  rw [buildLoop_all_valid env skipList config pl0 0 hvalid hnodup]
  rfl

theorem contribComponents_length (env : PtpEnv) (skipList : List String) (config : Config)
    (hvalid : ∀ sec ∈ config, skipList.contains sec.1 = false →
      (sectionOutcome env sec).isSome = true) :
    (contribComponents env skipList config).length
      = (config.filter (fun sec => !(skipList.contains sec.1))).length := by
  induction config with
  | nil => rfl
  | cons sec rest ih =>
      have ihr := ih (fun s hs h => hvalid s (List.mem_cons_of_mem _ hs) h)
      by_cases hskip : skipList.contains sec.1 = true
      · have hm : sec.1 ∈ skipList := by simpa using hskip
        simp [contribComponents, List.filterMap_cons, hm, hskip, List.filter_cons,
          contribComponents] at ihr ⊢
        simpa [contribComponents] using ihr
      · have hsk : skipList.contains sec.1 = false := by simpa using hskip
        have hm : sec.1 ∉ skipList := by simpa using hsk
        have hsome := hvalid sec (List.mem_cons_self _ _) hsk
        obtain ⟨r, hr⟩ := Option.isSome_iff_exists.mp hsome
        simp [contribComponents, List.filterMap_cons, hm, hr, hsk, List.filter_cons] at ihr ⊢
        simpa [contribComponents] using ihr

theorem pyIndex_ofNat {α : Type} (l : List α) (i : Nat) :
    pyIndex l (Int.ofNat i) = l.get? i := by
  have h1 : ¬((i : Int) < 0) := Int.not_lt.mpr (Int.natCast_nonneg i)
  simp [pyIndex, h1, Int.natCast_nonneg i]

/-- C1: for every configuration whose non-skipped sections are all valid
pipeline stages with pairwise-distinct parseable priorities, built on a
fresh pipeline with a valid Problem registered, `build_pipeline` returns
0 errors, the pipeline length equals N+1 (N the number of non-skipped
component sections), the cached priorities are strictly ascending, and
indexed access at each position 0..N-1 returns the component stored at
the i-th smallest priority. -/
theorem c1_build_pipeline_valid (env : PtpEnv) (config : Config) (pr : Component)
    (skipList : List String)
    (hskip : sectionsToSkip config = .ok skipList)
    (hvalid : ∀ sec ∈ config, skipList.contains sec.1 = false →
      (sectionOutcome env sec).isSome = true)
    (hnodup : ((contribComponents env skipList config).map Prod.fst).Nodup) :
    ∃ pl, build_pipeline env { initPipeline with problem := some pr } config = .ok (pl, 0) ∧
      pipelineLen pl = (config.filter (fun sec => !(skipList.contains sec.1))).length + 1 ∧
      pl.priorities.length = (config.filter (fun sec => !(skipList.contains sec.1))).length ∧
      List.Sorted (fun a b => a < b) pl.priorities ∧
      (∀ i : Nat, i < pl.priorities.length →
        ∃ q c, pl.priorities.get? i = some q ∧ assocFind? pl.components q = some c ∧
          getItem pl (Int.ofNat i) = some c) := by
  have hb := build_pipeline_all_valid env config skipList
    { initPipeline with problem := some pr } hskip hvalid
    (by simpa [initPipeline] using hnodup)
  refine ⟨_, hb, ?_, ?_, ?_, ?_⟩
  · simp [pipelineLen, initPipeline, (List.perm_insertionSort _ _).length_eq,
      contribComponents_length env skipList config hvalid]
  · simp [initPipeline, (List.perm_insertionSort _ _).length_eq,
      contribComponents_length env skipList config hvalid]
  · have hperm := List.perm_insertionSort (fun a b : Rat => a ≤ b)
      ((contribComponents env skipList config).map Prod.fst)
    have hnd : (List.insertionSort (fun a b : Rat => a ≤ b)
        ((contribComponents env skipList config).map Prod.fst)).Nodup :=
      hperm.nodup_iff.mpr hnodup
    have hle := List.sorted_insertionSort (fun a b : Rat => a ≤ b)
      ((contribComponents env skipList config).map Prod.fst)
    exact hle.lt_of_le hnd
  · intro i hi
    have hperm := List.perm_insertionSort (fun a b : Rat => a ≤ b)
      ((contribComponents env skipList config).map Prod.fst)
    have hq := List.get?_eq_get hi
    have hqkeys : (List.insertionSort (fun a b : Rat => a ≤ b)
          ((contribComponents env skipList config).map Prod.fst)).get ⟨i, hi⟩
        ∈ (contribComponents env skipList config).map Prod.fst := by
      exact hperm.mem_iff.mp (List.get_mem _ _ _)
    have hsome : (assocFind? (contribComponents env skipList config)
        ((List.insertionSort (fun a b : Rat => a ≤ b)
          ((contribComponents env skipList config).map Prod.fst)).get ⟨i, hi⟩)).isSome = true :=
      (assocFind?_isSome_iff _ _).mpr hqkeys
    obtain ⟨c, hc⟩ := Option.isSome_iff_exists.mp hsome
    refine ⟨_, c, hq, ?_, ?_⟩
    · simpa [initPipeline] using hc
    · unfold getItem
      simp only [pyIndex_ofNat, hq, Option.some_bind]
      simpa [initPipeline] using hc

/-! Concrete fixtures: a mock class registry with one Model, one plain
Component, one Loss and one Problem class, used by the witnesses. -/

/-- A minimal concrete component instance. -/
def mkComp (nm cls : String) : Component :=
  { name := nm, clsName := cls, inputDefs := [], outputDefs := [],
    handshakeInput := fun _ => 0, exportOutput := fun d => (0, d) }

/-- A mock class derived from Model (hence Component). -/
def modelClassObj : ClassObj :=
  { clsName := "MockModel", mro := ["MockModel", "Model", "Component", "object"],
    instantiate := fun nm _ => .ok (mkComp nm "MockModel") }

/-- A mock class derived only from Component. -/
def plainClassObj : ClassObj :=
  { clsName := "MockComp", mro := ["MockComp", "Component", "object"],
    instantiate := fun nm _ => .ok (mkComp nm "MockComp") }

/-- A mock class derived from Loss. -/
def lossClassObj : ClassObj :=
  { clsName := "MockLoss", mro := ["MockLoss", "Loss", "Component", "object"],
    instantiate := fun nm _ => .ok (mkComp nm "MockLoss") }

/-- A mock class derived from Problem. -/
def problemClassObj : ClassObj :=
  { clsName := "MockProblem", mro := ["MockProblem", "Problem", "Component", "object"],
    instantiate := fun nm _ => .ok (mkComp nm "MockProblem") }

/-- A registry exposing the four mock classes at the package root and
nothing under dotted names. -/
def testEnv : PtpEnv :=
  { evalName := fun _ => .missing
    attrName := fun t =>
      if t = "MockModel" then .cls modelClassObj
      else if t = "MockComp" then .cls plainClassObj
      else if t = "MockLoss" then .cls lossClassObj
      else if t = "MockProblem" then .cls problemClassObj
      else .missing }

/-- A two-stage configuration (plus a reserved section) used by the C1
witness. -/
def c1Config : Config :=
  [("stage_a", .params { type? := some "MockModel", priority? := some (some 2) }),
   ("stage_b", .params { type? := some "MockComp", priority? := some (some 1) }),
   ("optimizer", .raw "unused")]

/-- Witness for C1: the hypotheses hold and the conclusion follows at a
concrete two-stage configuration with a registered problem. -/
theorem c1_build_pipeline_valid_witness :
    (sectionsToSkip c1Config = .ok reservedSkip ∧
      (∀ sec ∈ c1Config, reservedSkip.contains sec.1 = false →
        (sectionOutcome testEnv sec).isSome = true) ∧
      ((contribComponents testEnv reservedSkip c1Config).map Prod.fst).Nodup) ∧
    (∃ pl, build_pipeline testEnv
        { initPipeline with problem := some (mkComp "mnist" "MockProblem") } c1Config
        = .ok (pl, 0) ∧
      pipelineLen pl
        = (c1Config.filter (fun sec => !(reservedSkip.contains sec.1))).length + 1 ∧
      pl.priorities.length
        = (c1Config.filter (fun sec => !(reservedSkip.contains sec.1))).length ∧
      List.Sorted (fun a b => a < b) pl.priorities ∧
      (∀ i : Nat, i < pl.priorities.length →
        ∃ q c, pl.priorities.get? i = some q ∧ assocFind? pl.components q = some c ∧
          getItem pl (Int.ofNat i) = some c)) :=
  ⟨⟨rfl, by decide, by decide⟩,
    c1_build_pipeline_valid testEnv c1Config (mkComp "mnist" "MockProblem") reservedSkip
      rfl (by decide) (by decide)⟩

/-- C2: when a section's otherwise-valid parsed priority collides with a
priority already registered, the build loop counts exactly one
ConfigurationError for it and continues with the pipeline unchanged: the
second component is not added and the registry count stays at its prior
value. -/
theorem c2_duplicate_priority (env : PtpEnv) (skipList : List String) (pl : Pipeline)
    (errors : Nat) (c_key : String) (ps : Params) (rest : Config)
    (q : Rat) (comp : Component) (cobj : ClassObj)
    (hsk : skipList.contains c_key = false)
    (hout : sectionOutcome env (c_key, .params ps) = some (q, comp, cobj))
    (hdup : dictHasKey pl.components q = true) :
    (∃ msg, buildSection env pl c_key (.params ps) = .error (.configurationError msg)) ∧
    buildLoop env skipList pl errors ((c_key, .params ps) :: rest)
      = buildLoop env skipList pl (errors + 1) rest := by
  have hbs := buildSection_duplicate hout hdup
  have hm : c_key ∉ skipList := by simpa using hsk
  exact ⟨⟨_, hbs⟩, by simp [buildLoop, hm, hbs]⟩

/-- The pipeline state the C2 witness starts from: one component already
registered at priority 1. -/
def c2Pipeline : Pipeline :=
  { initPipeline with components := [((1 : Rat), mkComp "stage_a" "MockComp")] }

/-- Witness for C2 at a concrete duplicate-priority section. -/
theorem c2_duplicate_priority_witness :
    (reservedSkip.contains "stage_b" = false ∧
      sectionOutcome testEnv
        ("stage_b", .params { type? := some "MockComp", priority? := some (some 1) })
        = some (1, mkComp "stage_b" "MockComp", plainClassObj) ∧
      dictHasKey c2Pipeline.components 1 = true) ∧
    ((∃ msg, buildSection testEnv c2Pipeline "stage_b"
        (.params { type? := some "MockComp", priority? := some (some 1) })
        = .error (.configurationError msg)) ∧
      buildLoop testEnv reservedSkip c2Pipeline 0
          [("stage_b", .params { type? := some "MockComp", priority? := some (some 1) })]
        = buildLoop testEnv reservedSkip c2Pipeline (0 + 1) []) :=
  ⟨⟨by decide, rfl, by decide⟩,
    c2_duplicate_priority testEnv reservedSkip c2Pipeline 0 "stage_b"
      { type? := some "MockComp", priority? := some (some 1) } []
      1 (mkComp "stage_b" "MockComp") plainClassObj (by decide) rfl (by decide)⟩

/-- C9: if no Problem has been registered, handshake raises (attribute
access on None) instead of returning an error count. -/
theorem c9_handshake_no_problem (pl : Pipeline) (h : pl.problem = none) :
    handshake pl
      = .error (.attributeError "NoneType object has no attribute output_data_definitions") := by
  simp [handshake, h]

/-- Witness for C9 on the freshly initialized pipeline. -/
theorem c9_handshake_no_problem_witness :
    initPipeline.problem = none ∧
    handshake initPipeline
      = .error (.attributeError "NoneType object has no attribute output_data_definitions") :=
  ⟨rfl, c9_handshake_no_problem initPipeline rfl⟩

/-- C10: for a pipeline with n cached priorities all present in the
registry, indexed access at -k with 1 ≤ k ≤ n returns the component at
position n-k and succeeds; access at any index ≥ n or < -n fails. -/
theorem c10_negative_index (pl : Pipeline) (k : Nat)
    (hk1 : 1 ≤ k) (hk2 : k ≤ pl.priorities.length)
    (hall : ∀ q ∈ pl.priorities, (assocFind? pl.components q).isSome = true) :
    getItem pl (-(k : Int)) = getItem pl ((pl.priorities.length : Int) - k) ∧
    (getItem pl (-(k : Int))).isSome = true ∧
    (∀ i : Int, ((pl.priorities.length : Int) ≤ i ∨ i < -(pl.priorities.length : Int)) →
      getItem pl i = none) := by
  have e1 : pyIndex pl.priorities (-(k : Int))
      = pl.priorities.get? (pl.priorities.length - k) := by
    unfold pyIndex
    rw [if_pos (show -(k : Int) < 0 from by omega)]
    rw [if_pos (show (0 : Int) ≤ -(k : Int) + pl.priorities.length from by omega)]
    congr 1
    omega
  have e2 : pyIndex pl.priorities ((pl.priorities.length : Int) - k)
      = pl.priorities.get? (pl.priorities.length - k) := by
    unfold pyIndex
    rw [if_neg (show ¬((pl.priorities.length : Int) - k < 0) from by omega)]
    rw [if_pos (show (0 : Int) ≤ (pl.priorities.length : Int) - k from by omega)]
    congr 1
    omega
  have hlt : pl.priorities.length - k < pl.priorities.length := by omega
  have hg := List.get?_eq_get hlt
  refine ⟨?_, ?_, ?_⟩
  · simp only [getItem, e1, e2]
  · simp only [getItem, e1, hg, Option.some_bind]
    exact hall _ (List.get_mem _ _ _)
  · intro i hi
    have hnone : pyIndex pl.priorities i = none := by
      unfold pyIndex
      rcases hi with hi | hi
      · rw [if_neg (show ¬(i < 0) from by omega)]
        rw [if_pos (show (0 : Int) ≤ i from by omega)]
        exact List.get?_eq_none.mpr (by omega)
      · rw [if_pos (show i < 0 from by omega)]
        rw [if_neg (show ¬((0 : Int) ≤ i + pl.priorities.length) from by omega)]
    simp [getItem, hnone]

/-- The two-component pipeline state used by the C10 witness. -/
def c10Pipeline : Pipeline :=
  { problem := none
    components := [((1 : Rat), mkComp "a" "MockComp"), ((2 : Rat), mkComp "b" "MockComp")]
    models := []
    losses := []
    priorities := [(1 : Rat), (2 : Rat)] }

/-- Witness for C10 with k = 1 on a two-component pipeline. -/
theorem c10_negative_index_witness :
    (1 ≤ 1 ∧ 1 ≤ c10Pipeline.priorities.length ∧
      (∀ q ∈ c10Pipeline.priorities, (assocFind? c10Pipeline.components q).isSome = true)) ∧
    (getItem c10Pipeline (-((1 : Nat) : Int))
        = getItem c10Pipeline ((c10Pipeline.priorities.length : Int) - (1 : Nat)) ∧
      (getItem c10Pipeline (-((1 : Nat) : Int))).isSome = true ∧
      (∀ i : Int, ((c10Pipeline.priorities.length : Int) ≤ i
          ∨ i < -(c10Pipeline.priorities.length : Int)) →
        getItem c10Pipeline i = none)) :=
  ⟨⟨le_refl 1, by decide, by decide⟩,
    c10_negative_index c10Pipeline 1 (le_refl 1) (by decide) (by decide)⟩

/-- Recognizer for the one exception type the pipeline catches. -/
def isConfigurationError : PyError → Bool
  | .configurationError _ => true
  | _ => false

/-- C4 amended: create_problem never lets a ConfigurationError escape
(such failures become a returned count of at most 1), but resolution
failures and component-initializer failures propagate as uncaught
exceptions. -/
theorem c4_create_problem_bounded (env : PtpEnv) (pl : Pipeline) (name : String)
    (params : SectionVal) :
    match create_problem env pl name params with
    | .ok (_, n) => n ≤ 1
    | .error e => isConfigurationError e = false := by
  unfold create_problem
  cases h : create_component env name params with
  | ok r =>
      obtain ⟨comp, cobj⟩ := r
      by_cases hp : "Problem" ∈ cobj.mro <;> simp [hp]
  | error e => cases e <;> simp [isConfigurationError]

/-- C4 counterexample: create_problem raises an uncaught AttributeError
when the declared type name resolves to nothing, so it can raise past
its own boundary. -/
theorem c4_create_problem_counterexample :
    create_problem testEnv initPipeline "problem"
        (.params { type? := some "NoSuchClass", priority? := none })
      = .error (.attributeError "NoSuchClass") := rfl

theorem exceptThrow_bind {ε α β : Type} (e : ε) (f : α → Except ε β) :
    (throw e : Except ε α) >>= f = Except.error e := rfl

theorem create_component_no_type (env : PtpEnv) (name : String) {ps : Params}
    (h : ps.type? = none) :
    create_component env name (.params ps) = .error (.configurationError
      ("Section " ++ name ++ " does not contain the key 'type' defining the component type")) := by
  simp only [create_component, h, exceptThrow_bind]

theorem create_component_nonclass (env : PtpEnv) (name : String) {ps : Params} {t : String}
    (hty : ps.type? = some t) (h : resolveType env t = .nonClass) :
    create_component env name (.params ps)
      = .error (.attributeError (t ++ " is not a class")) := by
  simp only [create_component, hty, pure_bind]
  rw [h]
  rfl

theorem create_component_missing (env : PtpEnv) (name : String) {ps : Params} {t : String}
    (hty : ps.type? = some t) (h : resolveType env t = .missing) :
    create_component env name (.params ps) = .error (.attributeError t) := by
  simp only [create_component, hty, pure_bind]
  rw [h]
  rfl

theorem create_component_not_component (env : PtpEnv) (name : String) {ps : Params}
    {t : String} {cobj : ClassObj}
    (hty : ps.type? = some t) (hres : resolveType env t = .cls cobj)
    (hc : cobj.mro.contains "Component" = false) :
    create_component env name (.params ps) = .error (.configurationError
      ("Class '" ++ t ++ "' is not derived from the Component class")) := by
  have hmem : "Component" ∉ cobj.mro := by simpa using hc
  simp only [create_component, hty, pure_bind]
  rw [hres]
  simp [hmem]
  rfl

theorem create_component_init_fails (env : PtpEnv) (name : String) {ps : Params}
    {t : String} {cobj : ClassObj} {msg : String}
    (hty : ps.type? = some t) (hres : resolveType env t = .cls cobj)
    (hc : cobj.mro.contains "Component" = true)
    (hinst : cobj.instantiate name (.params ps) = .error msg) :
    create_component env name (.params ps) = .error (.componentInitError msg) := by
  have hmem : "Component" ∈ cobj.mro := by simpa using hc
  simp only [create_component, hty, pure_bind]
  rw [hres]
  simp [hmem, hinst]
  rfl

theorem create_component_succeeds (env : PtpEnv) (name : String) {ps : Params}
    {t : String} {cobj : ClassObj} {comp : Component}
    (hty : ps.type? = some t) (hres : resolveType env t = .cls cobj)
    (hc : cobj.mro.contains "Component" = true)
    (hinst : cobj.instantiate name (.params ps) = .ok comp) :
    create_component env name (.params ps) = .ok (comp, cobj) := by
  have hmem : "Component" ∈ cobj.mro := by simpa using hc
  simp only [create_component, hty, pure_bind]
  rw [hres]
  simp [hmem, hinst]
  rfl

/-- C3 amended: on a parameter record, create_component fails with a
ConfigurationError exactly when the type key is absent or the resolved
class does not transitively implement Component; an unresolvable or
non-class type name escapes as an uncaught AttributeError instead; and
once those checks pass the only remaining failure is the component
initializer's own exception. -/
theorem c3_create_component_taxonomy (env : PtpEnv) (name : String) (ps : Params) :
    ((∃ msg, create_component env name (.params ps) = .error (.configurationError msg)) ↔
      (ps.type? = none ∨ (∃ t cobj, ps.type? = some t ∧ resolveType env t = .cls cobj ∧
        cobj.mro.contains "Component" = false))) ∧
    (∀ t, ps.type? = some t →
      (resolveType env t = .nonClass ∨ resolveType env t = .missing) →
      ∃ msg, create_component env name (.params ps) = .error (.attributeError msg)) ∧
    (∀ t cobj msg, ps.type? = some t → resolveType env t = .cls cobj →
      cobj.mro.contains "Component" = true →
      cobj.instantiate name (.params ps) = .error msg →
      create_component env name (.params ps) = .error (.componentInitError msg)) := by
  refine ⟨⟨?_, ?_⟩, ?_, ?_⟩
  · rintro ⟨msg, hmsg⟩
    cases hty : ps.type? with
    | none => exact Or.inl rfl
    | some t =>
        cases hres : resolveType env t with
        | nonClass =>
            rw [create_component_nonclass env name hty hres] at hmsg
            exact absurd hmsg (by simp)
        | missing =>
            rw [create_component_missing env name hty hres] at hmsg
            exact absurd hmsg (by simp)
        | cls cobj =>
            cases hc : cobj.mro.contains "Component" with
            | false => exact Or.inr ⟨t, cobj, rfl, hres, hc⟩
            | true =>
                cases hinst : cobj.instantiate name (.params ps) with
                | ok comp =>
                    rw [create_component_succeeds env name hty hres hc hinst] at hmsg
                    exact absurd hmsg (by simp)
                | error m =>
                    rw [create_component_init_fails env name hty hres hc hinst] at hmsg
                    exact absurd hmsg (by simp)
  · rintro (hn | ⟨t, cobj, hty, hres, hc⟩)
    · exact ⟨_, create_component_no_type env name hn⟩
    · exact ⟨_, create_component_not_component env name hty hres hc⟩
  · rintro t hty (hres | hres)
    · exact ⟨_, create_component_nonclass env name hty hres⟩
    · exact ⟨_, create_component_missing env name hty hres⟩
  · intro t cobj msg hty hres hc hinst
    exact create_component_init_fails env name hty hres hc hinst

/-- C3 counterexample: when the declared type name does not resolve to a
registered class, create_component raises an uncaught AttributeError,
not the ConfigurationError the claim requires. -/
theorem c3_create_component_counterexample :
    create_component testEnv "x" (.params { type? := some "NoSuchClass", priority? := none })
      = .error (.attributeError "NoSuchClass") := rfl

/-- Witness for C3: the taxonomy applied at a concrete record whose type
name does not resolve yields an AttributeError. -/
theorem c3_create_component_taxonomy_witness :
    ∃ msg, create_component testEnv "x"
        (.params { type? := some "MissingName", priority? := none })
      = .error (.attributeError msg) :=
  (c3_create_component_taxonomy testEnv "x"
      { type? := some "MissingName", priority? := none }).2.1
    "MissingName" rfl (Or.inr rfl)

/-- A configuration with a duplicate priority between two Model
sections, used by the C5 counterexample. -/
def c5ConfigA : Config :=
  [("a", .params { type? := some "MockModel", priority? := some (some 1) }),
   ("b", .params { type? := some "MockModel", priority? := some (some 1) }),
   ("c", .params { type? := some "MockModel", priority? := some (some 2) })]

/-- The reversal of `c5ConfigA`. -/
def c5ConfigB : Config :=
  [("c", .params { type? := some "MockModel", priority? := some (some 2) }),
   ("b", .params { type? := some "MockModel", priority? := some (some 1) }),
   ("a", .params { type? := some "MockModel", priority? := some (some 1) })]

/-- C5 counterexample: permuting the sections of a configuration with a
duplicate priority changes which component survives at that priority and
changes the Model list (in membership and order), while the error count
stays at 1; the final structure is therefore not permutation-invariant
as claimed. -/
theorem c5_counterexample :
    c5ConfigA.Perm c5ConfigB ∧
    (build_pipeline testEnv initPipeline c5ConfigA).map
        (fun r => (r.1.models.map Component.name, r.2)) = .ok (["a", "c"], 1) ∧
    (build_pipeline testEnv initPipeline c5ConfigB).map
        (fun r => (r.1.models.map Component.name, r.2)) = .ok (["c", "b"], 1) ∧
    ((["a", "c"] : List String) ≠ (["c", "b"] : List String)) :=
  ⟨by decide, rfl, rfl, by decide⟩

/-- C5 amended: for configurations with unique section names whose
non-skipped sections are all valid with pairwise-distinct priorities,
permuting the declared section order preserves the error count (0), the
priority-keyed component mapping pointwise, the cached ascending
execution order, and the Model and Loss lists up to permutation. With
duplicate priorities or invalid sections this fails: which component
survives a priority collision, and the order of the Model and Loss
lists, follow declaration order. -/
theorem c5_perm_invariance (env : PtpEnv) (cfg1 cfg2 : Config) (skipList : List String)
    (popt : Option Component)
    (hperm : cfg1.Perm cfg2)
    (hkeys : (cfg1.map Prod.fst).Nodup)
    (hskip1 : sectionsToSkip cfg1 = .ok skipList)
    (hvalid : ∀ sec ∈ cfg1, skipList.contains sec.1 = false →
      (sectionOutcome env sec).isSome = true)
    (hnodup : ((contribComponents env skipList cfg1).map Prod.fst).Nodup) :
    ∃ pl1 pl2,
      build_pipeline env { initPipeline with problem := popt } cfg1 = .ok (pl1, 0) ∧
      build_pipeline env { initPipeline with problem := popt } cfg2 = .ok (pl2, 0) ∧
      pl1.problem = pl2.problem ∧
      (∀ q, assocFind? pl1.components q = assocFind? pl2.components q) ∧
      pl1.priorities = pl2.priorities ∧
      pl1.models.Perm pl2.models ∧
      pl1.losses.Perm pl2.losses := by
  have hlk := assocFind?_perm hperm hkeys "skip"
  have hskip2 : sectionsToSkip cfg2 = .ok skipList := by
    unfold sectionsToSkip at hskip1 ⊢
    rw [← hlk]
    exact hskip1
  have hcp : (contribComponents env skipList cfg1).Perm
      (contribComponents env skipList cfg2) :=
    hperm.filterMap _
  have hmp : (contribTagged "Model" env skipList cfg1).Perm
      (contribTagged "Model" env skipList cfg2) :=
    hperm.filterMap _
  have hlp : (contribTagged "Loss" env skipList cfg1).Perm
      (contribTagged "Loss" env skipList cfg2) :=
    hperm.filterMap _
  have hvalid2 : ∀ sec ∈ cfg2, skipList.contains sec.1 = false →
      (sectionOutcome env sec).isSome = true :=
    fun s hs h => hvalid s (hperm.mem_iff.mpr hs) h
  have hnodup2 : ((contribComponents env skipList cfg2).map Prod.fst).Nodup :=
    ((hcp.map Prod.fst).nodup_iff).mp hnodup
  have hb1 := build_pipeline_all_valid env cfg1 skipList
    { initPipeline with problem := popt } hskip1 hvalid
    (by simpa [initPipeline] using hnodup)
  have hb2 := build_pipeline_all_valid env cfg2 skipList
    { initPipeline with problem := popt } hskip2 hvalid2
    (by simpa [initPipeline] using hnodup2)
  refine ⟨_, _, hb1, hb2, rfl, ?_, ?_, ?_, ?_⟩
  · intro q
    simpa [initPipeline] using assocFind?_perm hcp hnodup q
  · have hkp : ((contribComponents env skipList cfg1).map Prod.fst).Perm
        ((contribComponents env skipList cfg2).map Prod.fst) := hcp.map Prod.fst
    have hs1 := List.sorted_insertionSort (fun a b : Rat => a ≤ b)
      ((contribComponents env skipList cfg1).map Prod.fst)
    have hs2 := List.sorted_insertionSort (fun a b : Rat => a ≤ b)
      ((contribComponents env skipList cfg2).map Prod.fst)
    have hp12 : (List.insertionSort (fun a b : Rat => a ≤ b)
          ((contribComponents env skipList cfg1).map Prod.fst)).Perm
        (List.insertionSort (fun a b : Rat => a ≤ b)
          ((contribComponents env skipList cfg2).map Prod.fst)) :=
      ((List.perm_insertionSort _ _).trans hkp).trans (List.perm_insertionSort _ _).symm
    simpa [initPipeline] using List.eq_of_perm_of_sorted hp12 hs1 hs2
  · simpa [initPipeline] using hmp
  · simpa [initPipeline] using hlp

/-- A valid two-section configuration with distinct priorities. -/
def c5ValidA : Config :=
  [("a", .params { type? := some "MockModel", priority? := some (some 1) }),
   ("b", .params { type? := some "MockLoss", priority? := some (some 2) })]

/-- The reversal of `c5ValidA`. -/
def c5ValidB : Config :=
  [("b", .params { type? := some "MockLoss", priority? := some (some 2) }),
   ("a", .params { type? := some "MockModel", priority? := some (some 1) })]

/-- Witness for the amended C5 on a concrete valid pair of permuted
configurations. -/
theorem c5_perm_invariance_witness :
    (c5ValidA.Perm c5ValidB ∧
      (c5ValidA.map Prod.fst).Nodup ∧
      sectionsToSkip c5ValidA = .ok reservedSkip ∧
      (∀ sec ∈ c5ValidA, reservedSkip.contains sec.1 = false →
        (sectionOutcome testEnv sec).isSome = true) ∧
      ((contribComponents testEnv reservedSkip c5ValidA).map Prod.fst).Nodup) ∧
    (∃ pl1 pl2,
      build_pipeline testEnv { initPipeline with problem := none } c5ValidA = .ok (pl1, 0) ∧
      build_pipeline testEnv { initPipeline with problem := none } c5ValidB = .ok (pl2, 0) ∧
      pl1.problem = pl2.problem ∧
      (∀ q, assocFind? pl1.components q = assocFind? pl2.components q) ∧
      pl1.priorities = pl2.priorities ∧
      pl1.models.Perm pl2.models ∧
      pl1.losses.Perm pl2.losses) :=
  ⟨⟨by decide, by decide, rfl, by decide, by decide⟩,
    c5_perm_invariance testEnv c5ValidA c5ValidB reservedSkip none (by decide) (by decide)
      rfl (by decide) (by decide)⟩

theorem handshakeLoop_spec (pl : Pipeline) (prios : List Rat) :
    ∀ (errors : Nat) (defs : DefinitionSet),
    (∀ q ∈ prios, (assocFind? pl.components q).isSome = true) →
    handshakeLoop pl errors defs prios = .ok
      ((prios.filterMap (assocFind? pl.components)).foldl
        (fun acc c => (acc.1 + c.handshakeInput acc.2 + (c.exportOutput acc.2).1,
          (c.exportOutput acc.2).2)) (errors, defs)).1 := by
  induction prios with
  | nil => intro errors defs _; rfl
  | cons p rest ih =>
      intro errors defs hall
      obtain ⟨c, hc⟩ := Option.isSome_iff_exists.mp (hall p (List.mem_cons_self _ _))
      simp only [handshakeLoop, hc, List.filterMap_cons, List.foldl_cons]
      exact ih _ _ (fun q hq => hall q (List.mem_cons_of_mem _ hq))

/-- C6: with a Problem registered and every cached priority present in
the registry, handshake equals the contract as specified: starting from
the Problem's declared output definition set, visit the components in
cached priority order, first add each component's input-validation error
count against the accumulated set, then its export error count while
merging its outputs into the set, and return the total. -/
theorem c6_handshake_spec (pl : Pipeline) (pr : Component)
    (hpr : pl.problem = some pr)
    (hall : ∀ q ∈ pl.priorities, (assocFind? pl.components q).isSome = true) :
    handshake pl = .ok (handshakeSpec pr (orderedComponents pl)) := by
  simp only [handshake, hpr]
  rw [handshakeLoop_spec pl pl.priorities 0 pr.outputDefs hall]
  rfl

/-- A data definition used by the handshake fixtures. -/
def dd (n : Nat) : DataDefinition :=
  { dimensions := [Int.ofNat n], types := ["float"], description := "slot" }

/-- A mock problem exporting one image slot. -/
def probComp : Component :=
  { name := "mnist", clsName := "MockProblem", inputDefs := [],
    outputDefs := [("image", dd 28)],
    handshakeInput := fun _ => 0, exportOutput := fun d => (0, d) }

/-- A stage requiring `image` and exporting `logits`. -/
def compA : Component :=
  { name := "a", clsName := "MockModel",
    inputDefs := [("image", dd 28)], outputDefs := [("logits", dd 10)],
    handshakeInput := fun d => if (assocFind? d "image").isSome then 0 else 1,
    exportOutput := fun d => (0, d ++ [("logits", dd 10)]) }

/-- A stage requiring `logits` and exporting nothing. -/
def compB : Component :=
  { name := "b", clsName := "MockComp",
    inputDefs := [("logits", dd 10)], outputDefs := [],
    handshakeInput := fun d => if (assocFind? d "logits").isSome then 0 else 1,
    exportOutput := fun d => (0, d) }

/-- A two-stage pipeline with a problem, used by the C6 and C7
witnesses. -/
def c6Pipeline : Pipeline :=
  { problem := some probComp
    components := [((1 : Rat), compA), ((2 : Rat), compB)]
    models := [compA]
    losses := []
    priorities := [(1 : Rat), (2 : Rat)] }

/-- Witness for C6 on the two-stage pipeline. -/
theorem c6_handshake_spec_witness :
    (c6Pipeline.problem = some probComp ∧
      (∀ q ∈ c6Pipeline.priorities, (assocFind? c6Pipeline.components q).isSome = true)) ∧
    handshake c6Pipeline = .ok (handshakeSpec probComp (orderedComponents c6Pipeline)) :=
  ⟨⟨rfl, by decide⟩, c6_handshake_spec c6Pipeline probComp rfl (by decide)⟩

theorem summarizeLoop_spec (pl : Pipeline) (prios : List Rat) :
    ∀ (acc : String),
    (∀ q ∈ prios, (assocFind? pl.components q).isSome = true) →
    summarizeLoop pl acc prios = .ok
      (acc ++ String.join ((prios.filterMap
          (fun q => (assocFind? pl.components q).map (fun c => (q, c)))).map
        (fun e => summarizeEntry e.1 e.2))) := by
  induction prios with
  | nil =>
      intro acc _
      simp only [summarizeLoop, List.filterMap_nil, List.map_nil, strJoin_nil, strAppend_empty]
  | cons p rest ih =>
      intro acc hall
      obtain ⟨c, hc⟩ := Option.isSome_iff_exists.mp (hall p (List.mem_cons_self _ _))
      simp only [summarizeLoop, hc]
      rw [ih _ (fun q hq => hall q (List.mem_cons_of_mem _ hq))]
      simp [hc, List.filterMap_cons, strJoin_cons, strAppend_assoc]

/-- C7: summarize is read-only and deterministic: with every cached
priority present in the registry it returns the unchanged pipeline state
paired with the report enumerating the Problem (if any) and every
component in cached priority order. -/
theorem c7_summarize_pure (pl : Pipeline)
    (hall : ∀ q ∈ pl.priorities, (assocFind? pl.components q).isSome = true) :
    summarize pl = .ok (pl, reportOf pl) := by
  simp only [summarize]
  rw [summarizeLoop_spec pl pl.priorities (summarizeHeader ++ summarizeProblem pl) hall]
  simp only [exceptOk_bind, reportOf, orderedEntries]
  rw [strAppend_assoc, strAppend_assoc]
  rfl

/-- Witness for C7 on the two-stage pipeline. -/
theorem c7_summarize_pure_witness :
    (∀ q ∈ c6Pipeline.priorities, (assocFind? c6Pipeline.components q).isSome = true) ∧
    summarize c6Pipeline = .ok (c6Pipeline, reportOf c6Pipeline) :=
  ⟨by decide, c7_summarize_pure c6Pipeline (by decide)⟩

/-- C8: every reserved name, and every name listed in the comma-separated
skip directive, is in the computed skip list; and a section whose name is
in the skip list is skipped before any field validation, contributing no
error and no component whatever its value holds (in particular a section
with no type key). -/
theorem c8_skip_sections (env : PtpEnv) (config : Config) (skipList : List String)
    (pl : Pipeline) (errors : Nat) (c_key : String) (c_val : SectionVal) (rest : Config)
    (hskip : sectionsToSkip config = .ok skipList)
    (hmem : c_key ∈ skipList) :
    buildLoop env skipList pl errors ((c_key, c_val) :: rest)
      = buildLoop env skipList pl errors rest ∧
    (∀ r ∈ reservedSkip, r ∈ skipList) ∧
    (∀ s extra, assocFind? config "skip" = some (.raw s) → extra ∈ splitCommas s →
      extra ∈ skipList) := by
  refine ⟨by simp [buildLoop, hmem], ?_, ?_⟩
  · intro r hr
    unfold sectionsToSkip at hskip
    cases hl : assocFind? config "skip" with
    | none =>
        rw [hl] at hskip
        simp only [Except.ok.injEq] at hskip
        rw [← hskip]
        exact hr
    | some v =>
        cases v with
        | raw s =>
            rw [hl] at hskip
            simp only [Except.ok.injEq] at hskip
            rw [← hskip]
            exact List.mem_append_left _ hr
        | params ps =>
            rw [hl] at hskip
            exact absurd hskip (by simp)
  · intro s extra hl hsplit
    unfold sectionsToSkip at hskip
    rw [hl] at hskip
    simp only [Except.ok.injEq] at hskip
    rw [← hskip]
    exact List.mem_append_right _ hsplit

/-- The configuration of the C8 witness: a skip directive plus a
reserved-name section with no type key. -/
def c8Config : Config :=
  [("skip", .raw "extra1,extra2"),
   ("optimizer", .params { type? := none, priority? := none }),
   ("stage_a", .params { type? := some "MockComp", priority? := some (some 1) })]

/-- Witness for C8: the optimizer section with no type key is skipped
with no error, the reserved names and the directive names are in the
skip list. -/
theorem c8_skip_sections_witness :
    (sectionsToSkip c8Config = .ok (reservedSkip ++ splitCommas "extra1,extra2") ∧
      "optimizer" ∈ reservedSkip ++ splitCommas "extra1,extra2") ∧
    (buildLoop testEnv (reservedSkip ++ splitCommas "extra1,extra2") initPipeline 0
        (("optimizer", SectionVal.params { type? := none, priority? := none })
          :: [("stage_a", .params { type? := some "MockComp", priority? := some (some 1) })])
      = buildLoop testEnv (reservedSkip ++ splitCommas "extra1,extra2") initPipeline 0
        [("stage_a", .params { type? := some "MockComp", priority? := some (some 1) })] ∧
    (∀ r ∈ reservedSkip, r ∈ reservedSkip ++ splitCommas "extra1,extra2") ∧
    (∀ s extra, assocFind? c8Config "skip" = some (.raw s) → extra ∈ splitCommas s →
      extra ∈ reservedSkip ++ splitCommas "extra1,extra2")) :=
  ⟨⟨rfl, by decide⟩,
    c8_skip_sections testEnv c8Config (reservedSkip ++ splitCommas "extra1,extra2")
      initPipeline 0 "optimizer" (SectionVal.params { type? := none, priority? := none })
      [("stage_a", .params { type? := some "MockComp", priority? := some (some 1) })]
      rfl (by decide)⟩
